import Mathlib

/-!
Verification of the meetai authentication submission controller and
query-client wiring.

The repository under scrutiny ships two structurally identical
authentication controllers (sign-in and sign-up), a plain home-page
controller, and a TanStack query-client factory.  The component sources for
the sign-in view, sign-up view and home page are not present in the corpus
(only their test suites are), so those parts are modelled from the design
specification; the query-client code (`makeQueryClient`, `getQueryClient`)
is embedded directly from its source.
-/

namespace MeetAI

/-! ## Field schema / validator -/

/-- Split a list of characters at every occurrence of `c`. -/
def splitChar (c : Char) : List Char → List (List Char)
  | [] => [[]]
  | x :: xs =>
    let r := splitChar c xs
    if x = c then [] :: r
    else
      match r with
      | [] => [[x]]
      | y :: ys => (x :: y) :: ys

/-- Modelled from the spec: the "RFC-5322-lite email grammar" used by the
Field Schema (the zod schema source of the views is not in the corpus).
An address is one nonempty local part, an `@`, and a nonempty domain
containing at least one dot with all dot-separated labels nonempty. -/
def isValidEmail (s : String) : Bool :=
  match splitChar '@' s.toList with
  | [lp, dp] =>
    !lp.isEmpty && !dp.isEmpty &&
      (let labels := splitChar '.' dp
       decide (labels.length ≥ 2) && labels.all (fun l => !l.isEmpty))
  | _ => false

/-- Sign-up credentials as collected by the form. -/
structure SignUpInput where
  name : String
  email : String
  password : String
  confirmPassword : String
  deriving DecidableEq, Repr

/-- Sign-in credentials as collected by the form. -/
structure SignInInput where
  email : String
  password : String
  deriving DecidableEq, Repr

/-- A ValidationResult: mapping from field name to zero-or-one error
message, represented as an association list; the empty list signals a
valid input. -/
abbrev ValidationResult := List (String × String)

/-- Modelled from the spec: the sign-up Field Schema (the view source is
not in the corpus).  `name` nonempty; `email` matches the email grammar;
`password` nonempty; `confirmPassword` nonempty and equal to `password`. -/
def signUpValidate (i : SignUpInput) : ValidationResult :=
  (if i.name = "" then [("name", "Name is required")] else []) ++
  (if isValidEmail i.email then [] else [("email", "Invalid email")]) ++
  (if i.password = "" then [("password", "Password is required")] else []) ++
  (if i.confirmPassword = "" then [("confirmPassword", "Password is required")]
   else if i.confirmPassword = i.password then []
   else [("confirmPassword", "Passwords do not match")])

/-- Modelled from the spec: the sign-in Field Schema (the view source is
not in the corpus).  `email` matches the email grammar; `password`
nonempty. -/
def signInValidate (i : SignInInput) : ValidationResult :=
  (if isValidEmail i.email then [] else [("email", "Invalid email")]) ++
  (if i.password = "" then [("password", "Password is required")] else [])

/-! ## Submission controller state machine -/

/-- The controller phase from the spec data model. -/
inductive Phase where
  | Idle : Phase
  | Pending : Phase
  | Failed : String → Phase
  | Succeeded : Phase
  deriving DecidableEq, Repr

/-- The `SubmissionState` owned by one controller instance: the phase,
the stored global error message (rendered in the alert region when
present), and the per-field validation errors. -/
structure CtrlState where
  phase : Phase
  error : Option String
  fieldErrors : ValidationResult
  deriving DecidableEq, Repr

/-- Fresh state on mount. -/
def initState : CtrlState := { phase := .Idle, error := none, fieldErrors := [] }

/-- The `busy` flag projected from the phase: true exactly while a remote
call is in flight. -/
def busy (s : CtrlState) : Bool :=
  match s.phase with
  | .Pending => true
  | _ => false

/-- The submit control is disabled exactly when the controller is busy. -/
def submitDisabled (s : CtrlState) : Bool := busy s

/-- The secondary social-auth controls are disabled exactly when the
controller is busy. -/
def socialDisabled (s : CtrlState) : Bool := busy s

/-- The alert region renders the stored error message verbatim (or
nothing when no error is stored). -/
def renderAlert (s : CtrlState) : Option String := s.error

/-- Credentials payload handed to the remote auth operation.  The sign-up
constructor carries exactly name, email and password (no
confirmPassword); the sign-in constructor carries exactly email and
password. -/
inductive Payload where
  | signUp (name email password : String) : Payload
  | signIn (email password : String) : Payload
  deriving DecidableEq, Repr

/-- Observable side effects of a controller step. -/
inductive Effect where
  | authCall (p : Payload) : Effect
  | navigate (path : String) : Effect
  deriving DecidableEq, Repr

/-- Number of remote auth invocations in an effect list. -/
def authCallCount (effs : List Effect) : Nat :=
  (effs.filter fun e => match e with | .authCall _ => true | _ => false).length

/-- The navigation destinations issued in an effect list, in order. -/
def navigations (effs : List Effect) : List String :=
  effs.filterMap fun e => match e with | .navigate p => some p | _ => none

/-- Modelled from the spec: the shared submit transition of the
submission controller (the view sources are not in the corpus).  A submit
while busy is impossible (the affordance is disabled) and does nothing;
an invalid input surfaces per-field errors and dispatches nothing; a
valid input clears the stored error, enters `Pending` and dispatches the
remote auth operation exactly once. -/
def submitWith (errs : ValidationResult) (p : Payload) (s : CtrlState) :
    CtrlState × List Effect :=
  if busy s then (s, [])
  else if errs = [] then
    ({ phase := .Pending, error := none, fieldErrors := [] }, [.authCall p])
  else
    ({ s with phase := .Idle, fieldErrors := errs }, [])

/-- Submit attempt on the sign-up controller. -/
def signUpSubmit (s : CtrlState) (i : SignUpInput) : CtrlState × List Effect :=
  submitWith (signUpValidate i) (.signUp i.name i.email i.password) s

/-- Submit attempt on the sign-in controller. -/
def signInSubmit (s : CtrlState) (i : SignInInput) : CtrlState × List Effect :=
  submitWith (signInValidate i) (.signIn i.email i.password) s

/-- Modelled from the spec: the `onSuccess` callback of the in-flight
call (view sources not in the corpus): from `Pending` the controller
moves to `Succeeded` and issues a single navigation to `/`. -/
def successStep (s : CtrlState) : CtrlState × List Effect :=
  match s.phase with
  | .Pending => ({ s with phase := .Succeeded }, [.navigate "/"])
  | _ => (s, [])

/-- Modelled from the spec: generic fallback error text stored when the
error carries no message. -/
def fallbackMessage : String := "Something went wrong"

/-- Modelled from the spec: the `onError` callback of the in-flight call
(view sources not in the corpus): from `Pending` the controller moves to
`Failed`, stores the carried message (or the generic fallback) as the
visible error, and issues no navigation. -/
def errorStep (s : CtrlState) (msg : Option String) : CtrlState × List Effect :=
  match s.phase with
  | .Pending =>
    let m := msg.getD fallbackMessage
    ({ s with phase := .Failed m, error := some m }, [])
  | _ => (s, [])

/-! ## Home-page controller (no validation) -/

/-- Modelled from the spec: the home-page sign-up path (the page source
is not in the corpus; its test documents that auth methods are invoked
even with empty inputs).  It performs no validation and always dispatches
the remote sign-up operation with the collected fields. -/
def homeSignUpSubmit (name email password : String) : List Effect :=
  [.authCall (.signUp name email password)]

/-- Modelled from the spec: the home-page sign-in path (the page source
is not in the corpus).  It performs no validation and always dispatches
the remote sign-in operation with the collected fields. -/
def homeSignInSubmit (email password : String) : List Effect :=
  [.authCall (.signIn email password)]

/-! ## Query client (source: src/trpc/query-client.ts and the client provider) -/

/-- Status of a cached query, as inspected by the dehydration predicate. -/
inductive QueryStatus where
  | pending : QueryStatus
  | error : QueryStatus
  | success : QueryStatus
  deriving DecidableEq, Repr

/-- The observable state of a cached query. -/
structure QueryState where
  status : QueryStatus
  deriving DecidableEq, Repr

/-- A cached query as passed to the dehydration predicate. -/
structure Query where
  state : QueryState
  deriving DecidableEq, Repr

/-- Configuration carried by every QueryClient built by `makeQueryClient`:
the default staleTime for queries (milliseconds) and the dehydration
predicate. -/
structure QueryClientConfig where
  staleTime : Nat
  shouldDehydrateQuery : Query → Bool

/-- `makeQueryClient` from src/src/trpc/query-client.ts, parameterized by
the library predicate `defaultShouldDehydrateQuery` (an external import of
that file): queries.staleTime is `30 * 1000` and the dehydration
predicate accepts a query when the library default does or when its
status is pending. -/
def makeQueryClient (defaultShouldDehydrateQuery : Query → Bool) : QueryClientConfig :=
  { staleTime := 30 * 1000
    shouldDehydrateQuery := fun query =>
      defaultShouldDehydrateQuery query ||
        decide (query.state.status = QueryStatus.pending) }

/-- Identity of a QueryClient instance; instances are numbered in
creation order, so distinct ids mean distinct objects. -/
abbrev ClientId := Nat

/-- The module-level state of the tRPC client provider: how many clients
have been created so far, and the module-level `browserQueryClient`
variable (empty until first assigned). -/
structure ProviderState where
  created : Nat
  browserQueryClient : Option ClientId
  deriving DecidableEq, Repr

/-- Provider module state at load time. -/
def initProviderState : ProviderState := { created := 0, browserQueryClient := none }

/-- Allocate a brand-new QueryClient instance (what a call to
`makeQueryClient` does): the returned id is the next unused one. -/
def newClient (s : ProviderState) : ClientId × ProviderState :=
  (s.created, { s with created := s.created + 1 })

/-- Execution environment: on the server `window` is undefined. -/
inductive Env where
  | server : Env
  | browser : Env
  deriving DecidableEq, Repr

/-- `getQueryClient` from the client provider source (embedded at the end
of src/src/modules/auth/ui/views/sign-up-view.test.tsx): on the server it
always makes a new query client; in the browser it makes one only if the
module-level `browserQueryClient` slot is empty, otherwise it returns the
stored singleton. -/
def getQueryClient (env : Env) (s : ProviderState) : ClientId × ProviderState :=
  match env with
  | .server => newClient s
  | .browser =>
    match s.browserQueryClient with
    | some c => (c, s)
    | none =>
      let r := newClient s
      (r.1, { r.2 with browserQueryClient := some r.1 })

/-- The provider state after one browser call to `getQueryClient`. -/
def browserCallState (s : ProviderState) : ProviderState :=
  (getQueryClient Env.browser s).2

/-- The provider state after `n + 1` browser calls to `getQueryClient`. -/
def browserCallStateN (s : ProviderState) : Nat → ProviderState
  | 0 => browserCallState s
  | n + 1 => browserCallState (browserCallStateN s n)

/-! ## Helper lemmas -/

/-- A browser call to `getQueryClient` from a state that has already seen
a browser call returns the same client and leaves the state unchanged. -/
theorem browserCall_idem (s : ProviderState) :
    getQueryClient Env.browser (browserCallState s) =
      ((getQueryClient Env.browser s).1, browserCallState s) := by
  cases h : s.browserQueryClient <;>
    simp [getQueryClient, newClient, browserCallState, h]

/-- Repeated browser calls never move the provider state past the state
reached by the first call. -/
theorem browserCallStateN_fixed (s : ProviderState) (n : Nat) :
    browserCallStateN s n = browserCallState s := by
  induction n with
  | zero => rfl
  | succ n ih =>
    rw [browserCallStateN, ih]
    show (getQueryClient Env.browser (browserCallState s)).2 = browserCallState s
    rw [browserCall_idem]

/-! ## Claim theorems -/

/-- C1: for every input whose validation yields a non-empty
ValidationResult, a submit attempt on the sign-in or sign-up controller
never invokes the remote auth operation: the attempt dispatches zero
auth calls. -/
theorem invalid_input_never_calls_auth (s t : CtrlState)
    (i : SignUpInput) (j : SignInInput)
    (hi : signUpValidate i ≠ []) (hj : signInValidate j ≠ []) :
    authCallCount (signUpSubmit s i).2 = 0 ∧
    authCallCount (signInSubmit t j).2 = 0 := by
  constructor
  · cases hb : busy s <;>
      simp [signUpSubmit, submitWith, hb, hi, authCallCount]
  · cases hb : busy t <;>
      simp [signInSubmit, submitWith, hb, hj, authCallCount]

/-- Witness for C1: empty sign-up input and a malformed sign-in email
are rejected by the schema and dispatch no auth call. -/
theorem invalid_input_never_calls_auth_witness :
    signUpValidate ⟨"", "", "", ""⟩ ≠ [] ∧
    signInValidate ⟨"not-an-email", "secret"⟩ ≠ [] ∧
    (authCallCount (signUpSubmit initState ⟨"", "", "", ""⟩).2 = 0 ∧
     authCallCount (signInSubmit initState ⟨"not-an-email", "secret"⟩).2 = 0) :=
  ⟨by decide, by decide,
    invalid_input_never_calls_auth initState initState
      ⟨"", "", "", ""⟩ ⟨"not-an-email", "secret"⟩ (by decide) (by decide)⟩

/-- C2: for every input that passes the Field Schema, a submit attempt
from a non-busy controller invokes the remote auth operation exactly
once, with a payload holding exactly the schema field set: sign-up
carries name, email and password (confirmPassword excluded by the
`Payload.signUp` shape), sign-in carries email and password. -/
theorem valid_submit_calls_auth_once (s t : CtrlState)
    (i : SignUpInput) (j : SignInInput)
    (hs : busy s = false) (ht : busy t = false)
    (hi : signUpValidate i = []) (hj : signInValidate j = []) :
    (signUpSubmit s i).2 = [.authCall (.signUp i.name i.email i.password)] ∧
    authCallCount (signUpSubmit s i).2 = 1 ∧
    (signInSubmit t j).2 = [.authCall (.signIn j.email j.password)] ∧
    authCallCount (signInSubmit t j).2 = 1 := by
  refine ⟨?_, ?_, ?_, ?_⟩ <;>
    simp [signUpSubmit, signInSubmit, submitWith, hs, ht, hi, hj, authCallCount]

/-- Witness for C2: the valid credentials from the test suites dispatch
exactly one auth call carrying exactly the schema fields. -/
theorem valid_submit_calls_auth_once_witness :
    busy initState = false ∧
    signUpValidate ⟨"John Doe", "john@example.com", "supersecret", "supersecret"⟩ = [] ∧
    signInValidate ⟨"m@example.com", "correcthorsebatterystaple"⟩ = [] ∧
    ((signUpSubmit initState
        ⟨"John Doe", "john@example.com", "supersecret", "supersecret"⟩).2 =
       [.authCall (.signUp "John Doe" "john@example.com" "supersecret")] ∧
     authCallCount (signUpSubmit initState
        ⟨"John Doe", "john@example.com", "supersecret", "supersecret"⟩).2 = 1 ∧
     (signInSubmit initState ⟨"m@example.com", "correcthorsebatterystaple"⟩).2 =
       [.authCall (.signIn "m@example.com" "correcthorsebatterystaple")] ∧
     authCallCount (signInSubmit initState
        ⟨"m@example.com", "correcthorsebatterystaple"⟩).2 = 1) :=
  ⟨by decide, by decide, by decide,
    valid_submit_calls_auth_once initState initState
      ⟨"John Doe", "john@example.com", "supersecret", "supersecret"⟩
      ⟨"m@example.com", "correcthorsebatterystaple"⟩
      (by decide) (by decide) (by decide) (by decide)⟩

/-- C3: while the phase is Pending the submit and social controls all
report busy, a submit attempt on either controller dispatches nothing
(so no second remote call can start), and as soon as onSuccess or
onError fires the controller is no longer busy. -/
theorem pending_disables_all_controls (s : CtrlState) (m : Option String)
    (i : SignUpInput) (j : SignInInput)
    (h : s.phase = Phase.Pending) :
    busy s = true ∧ submitDisabled s = true ∧ socialDisabled s = true ∧
    (signUpSubmit s i).2 = [] ∧ (signInSubmit s j).2 = [] ∧
    busy (successStep s).1 = false ∧ busy (errorStep s m).1 = false := by
  refine ⟨?_, ?_, ?_, ?_, ?_, ?_, ?_⟩ <;>
    simp [busy, submitDisabled, socialDisabled, signUpSubmit, signInSubmit,
      submitWith, successStep, errorStep, h]

/-- Witness for C3 at a concrete Pending state and concrete inputs. -/
theorem pending_disables_all_controls_witness :
    ({ phase := Phase.Pending, error := none, fieldErrors := [] } : CtrlState).phase =
      Phase.Pending ∧
    (busy { phase := Phase.Pending, error := none, fieldErrors := [] } = true ∧
     submitDisabled { phase := Phase.Pending, error := none, fieldErrors := [] } = true ∧
     socialDisabled { phase := Phase.Pending, error := none, fieldErrors := [] } = true ∧
     (signUpSubmit { phase := Phase.Pending, error := none, fieldErrors := [] }
        ⟨"Valid User", "valid@example.com", "password123", "password123"⟩).2 = [] ∧
     (signInSubmit { phase := Phase.Pending, error := none, fieldErrors := [] }
        ⟨"m@example.com", "pw"⟩).2 = [] ∧
     busy (successStep { phase := Phase.Pending, error := none, fieldErrors := [] }).1 = false ∧
     busy (errorStep { phase := Phase.Pending, error := none, fieldErrors := [] } none).1 = false) :=
  ⟨rfl,
    pending_disables_all_controls
      { phase := Phase.Pending, error := none, fieldErrors := [] } none
      ⟨"Valid User", "valid@example.com", "password123", "password123"⟩
      ⟨"m@example.com", "pw"⟩ rfl⟩

/-- C4: after a Failed outcome, a resubmit with valid input clears the
stored error immediately — the resulting state is Pending with no alert
rendered, so the stale error is never visible concurrently with the new
attempt being in flight. -/
theorem resubmit_clears_stale_error (s t : CtrlState) (m m' : String)
    (i : SignUpInput) (j : SignInInput)
    (hs : s.phase = Phase.Failed m) (ht : t.phase = Phase.Failed m')
    (hi : signUpValidate i = []) (hj : signInValidate j = []) :
    renderAlert (signUpSubmit s i).1 = none ∧
    (signUpSubmit s i).1.phase = Phase.Pending ∧
    renderAlert (signInSubmit t j).1 = none ∧
    (signInSubmit t j).1.phase = Phase.Pending := by
  refine ⟨?_, ?_, ?_, ?_⟩ <;>
    simp [renderAlert, signUpSubmit, signInSubmit, submitWith, busy, hs, ht, hi, hj]

/-- Witness for C4: resubmitting valid credentials from a concrete
Failed state renders no alert and is Pending. -/
theorem resubmit_clears_stale_error_witness :
    ({ phase := Phase.Failed "First failure", error := some "First failure",
        fieldErrors := [] } : CtrlState).phase = Phase.Failed "First failure" ∧
    signUpValidate ⟨"Casey", "casey@example.com", "pw123456", "pw123456"⟩ = [] ∧
    signInValidate ⟨"m@example.com", "pw"⟩ = [] ∧
    (renderAlert (signUpSubmit
        { phase := Phase.Failed "First failure", error := some "First failure",
          fieldErrors := [] }
        ⟨"Casey", "casey@example.com", "pw123456", "pw123456"⟩).1 = none ∧
     (signUpSubmit
        { phase := Phase.Failed "First failure", error := some "First failure",
          fieldErrors := [] }
        ⟨"Casey", "casey@example.com", "pw123456", "pw123456"⟩).1.phase = Phase.Pending ∧
     renderAlert (signInSubmit
        { phase := Phase.Failed "First failure", error := some "First failure",
          fieldErrors := [] } ⟨"m@example.com", "pw"⟩).1 = none ∧
     (signInSubmit
        { phase := Phase.Failed "First failure", error := some "First failure",
          fieldErrors := [] } ⟨"m@example.com", "pw"⟩).1.phase = Phase.Pending) :=
  ⟨rfl, by decide, by decide,
    resubmit_clears_stale_error
      { phase := Phase.Failed "First failure", error := some "First failure",
        fieldErrors := [] }
      { phase := Phase.Failed "First failure", error := some "First failure",
        fieldErrors := [] }
      "First failure" "First failure"
      ⟨"Casey", "casey@example.com", "pw123456", "pw123456"⟩
      ⟨"m@example.com", "pw"⟩ rfl rfl (by decide) (by decide)⟩

/-- C5: when the in-flight call resolves via onSuccess the controller
issues exactly one navigation, to the literal path "/"; a Failed outcome
issues no navigation at all. -/
theorem success_navigates_once_failure_never (s t : CtrlState) (m : Option String)
    (hs : s.phase = Phase.Pending) (ht : t.phase = Phase.Pending) :
    navigations (successStep s).2 = ["/"] ∧
    navigations (errorStep t m).2 = [] := by
  constructor <;> simp [navigations, successStep, errorStep, hs, ht]

/-- Witness for C5 at a concrete Pending state. -/
theorem success_navigates_once_failure_never_witness :
    ({ phase := Phase.Pending, error := none, fieldErrors := [] } : CtrlState).phase =
      Phase.Pending ∧
    (navigations (successStep
        { phase := Phase.Pending, error := none, fieldErrors := [] }).2 = ["/"] ∧
     navigations (errorStep
        { phase := Phase.Pending, error := none, fieldErrors := [] }
        (some "Invalid credentials")).2 = []) :=
  ⟨rfl,
    success_navigates_once_failure_never
      { phase := Phase.Pending, error := none, fieldErrors := [] }
      { phase := Phase.Pending, error := none, fieldErrors := [] }
      (some "Invalid credentials") rfl rfl⟩

/-- C6: when the in-flight call resolves via onError the controller
enters Failed, is no longer busy, and stores the carried message — or
the generic fallback when none is carried — which the alert region then
renders verbatim. -/
theorem error_callback_contract (s : CtrlState) (m : String)
    (h : s.phase = Phase.Pending) :
    (errorStep s (some m)).1.phase = Phase.Failed m ∧
    busy (errorStep s (some m)).1 = false ∧
    (errorStep s (some m)).1.error = some m ∧
    renderAlert (errorStep s (some m)).1 = some m ∧
    (errorStep s none).1.error = some fallbackMessage := by
  refine ⟨?_, ?_, ?_, ?_, ?_⟩ <;>
    simp [errorStep, busy, renderAlert, h]

/-- Witness for C6 with the error message used in the test suites. -/
theorem error_callback_contract_witness :
    ({ phase := Phase.Pending, error := none, fieldErrors := [] } : CtrlState).phase =
      Phase.Pending ∧
    ((errorStep { phase := Phase.Pending, error := none, fieldErrors := [] }
        (some "Invalid credentials")).1.phase = Phase.Failed "Invalid credentials" ∧
     busy (errorStep { phase := Phase.Pending, error := none, fieldErrors := [] }
        (some "Invalid credentials")).1 = false ∧
     (errorStep { phase := Phase.Pending, error := none, fieldErrors := [] }
        (some "Invalid credentials")).1.error = some "Invalid credentials" ∧
     renderAlert (errorStep { phase := Phase.Pending, error := none, fieldErrors := [] }
        (some "Invalid credentials")).1 = some "Invalid credentials" ∧
     (errorStep { phase := Phase.Pending, error := none, fieldErrors := [] }
        none).1.error = some fallbackMessage) :=
  ⟨rfl,
    error_callback_contract
      { phase := Phase.Pending, error := none, fieldErrors := [] }
      "Invalid credentials" rfl⟩

/-- C7: on the home-page controller a submit with all fields empty does
dispatch the remote auth operation — sign-up with empty name, email and
password and sign-in with empty email and password each reach the
backend exactly once. -/
theorem home_empty_submit_dispatches :
    homeSignUpSubmit "" "" "" = [.authCall (.signUp "" "" "")] ∧
    authCallCount (homeSignUpSubmit "" "" "") = 1 ∧
    homeSignInSubmit "" "" = [.authCall (.signIn "" "")] ∧
    authCallCount (homeSignInSubmit "" "") = 1 := by
  refine ⟨rfl, rfl, rfl, rfl⟩

/-- C8: validation is a pure function — identical inputs always yield
identical ValidationResults — and validating alone never dispatches the
remote call: from a freshly mounted controller a submit dispatches an
auth call exactly when the ValidationResult is empty, never otherwise. -/
theorem validate_pure_idempotent (i : SignUpInput) (j : SignInInput) :
    signUpValidate i = signUpValidate i ∧
    signInValidate j = signInValidate j ∧
    authCallCount (signUpSubmit initState i).2 =
      (if signUpValidate i = [] then 1 else 0) ∧
    authCallCount (signInSubmit initState j).2 =
      (if signInValidate j = [] then 1 else 0) := by
  refine ⟨rfl, rfl, ?_, ?_⟩
  · by_cases hi : signUpValidate i = [] <;>
      simp [signUpSubmit, submitWith, busy, initState, hi, authCallCount]
  · by_cases hj : signInValidate j = [] <;>
      simp [signInSubmit, submitWith, busy, initState, hj, authCallCount]

/-- C9: getQueryClient is environment-dependently idempotent — a server
call always returns the freshly created next client and advances the
creation counter (so two consecutive server calls return distinct
clients), while in the browser every call after the first returns
exactly the client produced by the first call without changing the
provider state. -/
theorem getQueryClient_env_contract (s : ProviderState) (n : Nat) :
    (getQueryClient Env.server s).1 = s.created ∧
    (getQueryClient Env.server s).2.created = s.created + 1 ∧
    (getQueryClient Env.server s).1 ≠
      (getQueryClient Env.server (getQueryClient Env.server s).2).1 ∧
    getQueryClient Env.browser (browserCallStateN s n) =
      ((getQueryClient Env.browser s).1, browserCallState s) := by
  refine ⟨rfl, rfl, ?_, ?_⟩
  · simp [getQueryClient, newClient]
  · rw [browserCallStateN_fixed, browserCall_idem]

/-- C10: every QueryClient built by makeQueryClient has
queries.staleTime equal to 30000 milliseconds, and its
shouldDehydrateQuery predicate accepts a query exactly when the library
default accepts it or the query status is pending. -/
theorem makeQueryClient_defaults (d : Query → Bool) (q : Query) :
    (makeQueryClient d).staleTime = 30000 ∧
    ((makeQueryClient d).shouldDehydrateQuery q = true ↔
      (d q = true ∨ q.state.status = QueryStatus.pending)) := by
  refine ⟨rfl, ?_⟩
  simp [makeQueryClient]

end MeetAI
